import Mathlib

/-!
Shallow embedding of the generation-request orchestration layer of the
aiphotogen repository (src/server.js, src/services/aiModelService.ts,
src/services/enhancedAIService.ts, src/api/generate.js), together with
theorems settling the frozen claims about it.

Conventions of the embedding:
* JavaScript strings are Lean `String`s; JavaScript numbers that only flow
  through the code as opaque values (`strength`) are represented by their
  JSON numeral token, a `String`.
* A possibly-`undefined` value is an `Option`.
* Wall-clock instants (`Date.now()`) are `Nat` milliseconds.
* Code that can throw returns `Except JsError` with the thrown message.
* The SHA-256 digest (Node `crypto.createHash`) is an explicit function
  parameter `hash : String → String`; collision-resistance is an explicit
  `Function.Injective hash` hypothesis where a theorem needs it.
-/

/-- JavaScript `a || b` for a possibly-undefined string: `undefined` and the
empty string are falsy. -/
def jsStrOr (a : Option String) (d : String) : String :=
  match a with
  | some s => if s = "" then d else s
  | none => d

/-- JavaScript `a || b` for a string that is already known to be defined
(the empty string is falsy). -/
def jsOrStr (s d : String) : String :=
  if s = "" then d else s

/-- JavaScript `a || b` for a possibly-undefined number, represented by its
JSON numeral token: `undefined` and `0` are falsy. -/
def numOr (a : Option String) (d : String) : String :=
  match a with
  | some t => if t = "0" then d else t
  | none => d

/-- JavaScript template-literal interpolation of a possibly-undefined string:
an undefined value prints as the text "undefined". -/
def jsTemplate (a : Option String) : String :=
  match a with
  | some s => s
  | none => "undefined"

/-- JavaScript `String.prototype.toLowerCase`, per code unit. -/
def jsToLower (s : String) : String :=
  ⟨s.data.map Char.toLower⟩

/-- JavaScript `String.prototype.includes` (substring test). -/
def jsIncludes (hay needle : String) : Bool :=
  (List.range (hay.data.length + 1)).any
    (fun i => needle.data.isPrefixOf (List.drop i hay.data))

/-- Lower-case hexadecimal digit, as produced by JSON `\u00XX` escapes. -/
def hexDigit (n : Nat) : Char :=
  if n < 10 then Char.ofNat (48 + n) else Char.ofNat (87 + n)

/-- JSON string escaping of one character, as performed by `JSON.stringify`
on the characters that can occur in a Lean `Char` (quote, backslash, the
named control escapes, `\u00XX` for the remaining control characters, and
every other character verbatim). -/
def escapeChar (c : Char) : List Char :=
  if c = '"' then ['\\', '"']
  else if c = '\\' then ['\\', '\\']
  else if c = '\x08' then ['\\', 'b']
  else if c = '\x09' then ['\\', 't']
  else if c = '\x0a' then ['\\', 'n']
  else if c = '\x0c' then ['\\', 'f']
  else if c = '\x0d' then ['\\', 'r']
  else if c.toNat < 32 then
    ['\\', 'u', '0', '0', hexDigit (c.toNat / 16), hexDigit (c.toNat % 16)]
  else [c]

/-- JSON string escaping of a character sequence. -/
def escapeList (l : List Char) : List Char :=
  l.flatMap escapeChar

/-- JSON string escaping of a string. -/
def jsonEscape (s : String) : String :=
  ⟨escapeList s.data⟩

/-- A JSON string literal: quote, escaped body, quote. -/
def jsonStr (s : String) : String :=
  "\"" ++ jsonEscape s ++ "\""

/-- Value of a lower-case hexadecimal digit character. -/
def hexVal (d : Char) : Nat :=
  if d.toNat ≥ 87 then d.toNat - 87 else d.toNat - 48

/-- Decoder for a `\u00XX` escape tail.  Used only to prove that
`escapeList` is injective. -/
def decodeHex : List Char → Option (Char × List Char)
  | a :: b :: d1 :: d2 :: r =>
      if a = '0' ∧ b = '0' then some (Char.ofNat (16 * hexVal d1 + hexVal d2), r)
      else none
  | _ => none

/-- Decoder for the character following a backslash.  Used only to prove
that `escapeList` is injective. -/
def decodeEscaped : List Char → Option (Char × List Char)
  | [] => none
  | d :: rest =>
      if d = '"' then some ('"', rest)
      else if d = '\\' then some ('\\', rest)
      else if d = 'b' then some ('\x08', rest)
      else if d = 't' then some ('\x09', rest)
      else if d = 'n' then some ('\x0a', rest)
      else if d = 'f' then some ('\x0c', rest)
      else if d = 'r' then some ('\x0d', rest)
      else if d = 'u' then decodeHex rest
      else none

/-- Decoder for the escape code: splits the first encoded character off an
escaped stream.  Used only to prove that `escapeList` is injective. -/
def decodeFirst : List Char → Option (Char × List Char)
  | [] => none
  | c :: rest => if c = '\\' then decodeEscaped rest else some (c, rest)

/-- The uploaded image as received by `POST /api/generate`
(src/server.js line 473): a base64 payload and a MIME type. -/
structure UploadedImage where
  base64 : String
  mimeType : String
deriving DecidableEq

/-- The client-supplied `GenerationOptions` object (src/types.ts).  Every
field is optional because the route performs no per-field validation; the
`strength` number is carried as its JSON numeral token. -/
structure ClientOptions where
  pose : Option String
  background : Option String
  clothing : Option String
  lighting : Option String
  style : Option String
  bodyType : Option String
  strength : Option String
  qualityMode : Option String
  enableHQRefinement : Option Bool
deriving DecidableEq

/-- `buildEnhancedPrompt` (src/server.js lines 541-554): fixed quality
tokens, the six labelled style fields, fixed closing tokens, joined with
", ".  The join is spelled out as the equivalent concatenation. -/
def buildEnhancedPrompt (options : ClientOptions) : String :=
  "ultra photorealistic, professional photography" ++ ", " ++
  ("pose: " ++ jsTemplate options.pose) ++ ", " ++
  ("background: " ++ jsTemplate options.background) ++ ", " ++
  ("clothing: " ++ jsTemplate options.clothing) ++ ", " ++
  ("lighting: " ++ jsTemplate options.lighting) ++ ", " ++
  ("style: " ++ jsTemplate options.style) ++ ", " ++
  ("body type: " ++ jsTemplate options.bodyType) ++ ", " ++
  "artistic photography, creative composition, masterpiece quality"

/-- The `aiRequest` object assembled by `POST /api/generate`
(src/server.js lines 488-496). -/
structure AIRequest where
  sourceImage : Option String
  targetPrompt : String
  options : ClientOptions
  strength : String
  qualityMode : String
deriving DecidableEq

/-- Assembly of `aiRequest` in `app.post('/api/generate')` (src/server.js
lines 484-496).  `optimizeImageForGeneration` is an `async` function and the
route does not `await` it, so `imageOptimization` is a pending Promise and
`imageOptimization.optimizedImage` evaluates to `undefined`: the forwarded
`sourceImage` is `none` whatever image the client uploaded. -/
def buildAIRequest (img : UploadedImage) (options : ClientOptions) : AIRequest :=
  { sourceImage := none
    targetPrompt := buildEnhancedPrompt options
    options := options
    strength := numOr options.strength "0.8"
    qualityMode := jsStrOr options.qualityMode "balanced" }

/-- The same `aiRequest` shape with the image payload actually resolved,
used to state the sensitivity of the cache fingerprint to request content
(the deployed route forwards `none` instead, see `buildAIRequest`). -/
def cacheRequestOf (img : String) (options : ClientOptions) : AIRequest :=
  { sourceImage := some img
    targetPrompt := buildEnhancedPrompt options
    options := options
    strength := numOr options.strength "0.8"
    qualityMode := jsStrOr options.qualityMode "balanced" }

/-- A thrown JavaScript error, reduced to its `message`. -/
structure JsError where
  message : String
deriving DecidableEq

/-- The serialization of `keyData.options` inside `generateCacheKey`
(src/server.js lines 220-231).  `JSON.stringify(keyData,
Object.keys(keyData).sort())` passes a replacer ARRAY, which acts as a
property allowlist at EVERY nesting level and fixes the key order; the
sorted top-level key list is
options, qualityMode, sourceImageHash, strength, targetPrompt, version,
so of the nested options object only its `qualityMode` and `strength`
properties (in that order) survive; `pose`, `background`, `clothing`,
`lighting`, `style`, `bodyType` and `enableHQRefinement` are dropped.
Undefined properties are omitted by `JSON.stringify`. -/
def serializeOptions (options : ClientOptions) : String :=
  "\x7b" ++
  String.intercalate ","
    ((match options.qualityMode with
      | some q => ["\"qualityMode\":" ++ jsonStr q]
      | none => []) ++
     (match options.strength with
      | some t => ["\"strength\":" ++ t]
      | none => [])) ++
  "\x7d"

/-- The `keyString` built inside `generateCacheKey` (src/server.js lines
220-230) for a request whose `sourceImage` resolved to `img`: the
`JSON.stringify` output for `keyData` under the sorted-key replacer array
(see `serializeOptions` for the replacer semantics). -/
def keyStringOf (hash : String → String) (req : AIRequest) (img : String) : String :=
  "\x7b\"options\":" ++ serializeOptions req.options ++
  ",\"qualityMode\":" ++ jsonStr req.qualityMode ++
  ",\"sourceImageHash\":" ++ jsonStr (hash img) ++
  ",\"strength\":" ++ req.strength ++
  ",\"targetPrompt\":" ++ jsonStr req.targetPrompt ++
  ",\"version\":\"2.0\"\x7d"

/-- The Node error message thrown by `crypto.Hash.update` when the data
argument is `undefined` (which is what `request.sourceImage` is in the
deployed pipeline, see `buildAIRequest`). -/
def dataArgMessage : String :=
  "The \"data\" argument must be of type string or an instance of Buffer, TypedArray, or DataView. Received undefined"

/-- `generateCacheKey` (src/server.js lines 219-232): SHA-256 of the entire
image payload, then SHA-256 of the serialized key data.  `hash` stands for
one `createHash('sha256').update(·).digest('hex')` round; hashing an
`undefined` payload throws. -/
def generateCacheKey (hash : String → String) (req : AIRequest) :
    Except JsError String :=
  match req.sourceImage with
  | none => .error ⟨dataArgMessage⟩
  | some img => .ok (hash (keyStringOf hash req img))

/-- A generation result as produced by `generateWithAI` / `generateDemo`
(src/server.js lines 251-259 and 341-352), reduced to the fields the claims
are about.  A JavaScript result object with no `fromCache` property reads as
falsy, modeled by `fromCache := false`. -/
structure DemoResult where
  status : String
  imageUrl : String
  fromCache : Bool
deriving DecidableEq

/-- One entry of the in-memory result cache (src/server.js lines 355-358):
the stored result and its creation time. -/
structure CacheEntry where
  result : DemoResult
  timestamp : Nat
deriving DecidableEq

/-- The process-wide `resultCache` `Map` (src/server.js line 216), as an
association list with the `Map` invariant that keys are distinct. -/
abbrev ResultCache := List (String × CacheEntry)

/-- `CACHE_DURATION` (src/server.js line 217): 24 hours in milliseconds. -/
def CACHE_DURATION : Nat := 24 * 60 * 60 * 1000

/-- `resultCache.has`/`resultCache.get` (src/server.js lines 274-275). -/
def cacheFind (cache : ResultCache) (key : String) : Option CacheEntry :=
  List.lookup key cache

/-- `resultCache.delete(key)` (src/server.js line 283). -/
def cacheDelete (cache : ResultCache) (key : String) : ResultCache :=
  cache.filter (fun p => !(p.1 = key : Bool))

/-- `resultCache.set(key, entry)` (src/server.js line 355): replace the
existing binding or append a new one. -/
def cacheSet (cache : ResultCache) (key : String) (entry : CacheEntry) : ResultCache :=
  match cache with
  | [] => [(key, entry)]
  | (k, v) :: rest =>
      if k = key then (key, entry) :: rest else (k, v) :: cacheSet rest key entry

/-- The Result Cache `get` operation, exactly as inlined in `generateDemo`
(src/server.js lines 274-285): a present entry younger than
`CACHE_DURATION` is returned; an older entry is deleted and treated as
absent; a missing key is absent. -/
def cacheGet (cache : ResultCache) (key : String) (now : Nat) :
    Option DemoResult × ResultCache :=
  match cacheFind cache key with
  | some cached =>
      if now - cached.timestamp < CACHE_DURATION then (some cached.result, cache)
      else (none, cacheDelete cache key)
  | none => (none, cache)

/-- The Result Cache `put` operation, exactly as inlined in `generateDemo`
(src/server.js lines 355-358). -/
def cachePut (cache : ResultCache) (key : String) (result : DemoResult)
    (now : Nat) : ResultCache :=
  cacheSet cache key ⟨result, now⟩

/-- The `processingSteps` lookup of `generateDemo` (src/server.js lines
301-307).  The table has no default: an unrecognized quality mode makes
`totalSteps` `undefined` in JavaScript, so the progress loop's bound
`i <= undefined` is false and the loop body never runs, which the embedding
renders as zero steps. -/
def processingStepsOf (qualityMode : String) : Nat :=
  if qualityMode = "fast" then 4
  else if qualityMode = "balanced" then 8
  else if qualityMode = "high" then 12
  else 0

/-- The step label of the demo progress loop (src/server.js lines 317-320).
The JavaScript thresholds `totalSteps * 0.3` and `totalSteps * 0.8` are
floating-point; for the step counts the table produces (4, 8, 12) no integer
lies between the double value and the exact rational, so the rational
comparison coincides. -/
def demoStepName (i n : Nat) : String :=
  if i ≤ 2 then "Preparing image..."
  else if (i : ℚ) ≤ (n : ℚ) * (3 / 10) then "Analyzing face..."
  else if (i : ℚ) ≤ (n : ℚ) * (8 / 10) then "Generating portrait..."
  else "Finalizing image..."

/-- One value written into `activeGenerations` or sent on the SSE stream
(src/server.js lines 323-332, 447, 499-531), reduced to the claim-relevant
fields. -/
structure Event where
  type : String
  status : String
  progress : Option ℚ
  message : Option String
  imageUrl : Option String
  error : Option String
  fromCache : Bool
deriving DecidableEq

/-- The progress events written by the demo loop (src/server.js lines
315-337): one `generating` event per step `i = 1 .. totalSteps` with
progress `i / totalSteps`, written only while the request id is still
present in `activeGenerations` (`tracked`). -/
def demoLoopEvents (n : Nat) (tracked : Bool) : List Event :=
  if tracked then
    (List.range n).map (fun k =>
      { type := "progress"
        status := "generating"
        progress := some (((k + 1 : Nat) : ℚ) / (n : ℚ))
        message := some (demoStepName (k + 1) n)
        imageUrl := none
        error := none
        fromCache := false })
  else []

/-- The demo result URL (src/server.js lines 340-343): `buildAIWorkflow`
always reports resolution `768x1024`, so the Unsplash URL is constant. -/
def demoImageUrl : String :=
  "https://images.unsplash.com/photo-1507003211169-0a1dd7228f2d?w=768&h=1024&fit=crop&crop=face&auto=format&q=90"

/-- `generateDemo` (src/server.js lines 269-361): compute the cache key
(which throws on an `undefined` source image), consult the cache — a fresh
hit is returned immediately with `fromCache: true` and no simulated
generation — otherwise run the simulated progress loop, cache the completed
result, and return it.  The value is the result, the updated cache, and the
progress events written along the way. -/
def generateDemo (hash : String → String) (cache : ResultCache) (now : Nat)
    (tracked : Bool) (req : AIRequest) :
    Except JsError (DemoResult × ResultCache × List Event) :=
  match generateCacheKey hash req with
  | .error e => .error e
  | .ok cacheKey =>
      match cacheGet cache cacheKey now with
      | (some cached, cache') =>
          .ok ({ cached with fromCache := true }, cache', [])
      | (none, cache') =>
          let qualityMode := jsOrStr req.qualityMode "balanced"
          let totalSteps := processingStepsOf qualityMode
          let result : DemoResult :=
            { status := "completed", imageUrl := demoImageUrl, fromCache := false }
          .ok (result, cachePut cache' cacheKey result now,
            demoLoopEvents totalSteps tracked)

/-- The outcome of the one `aiModelService.generateImage` call made by
`generateWithAI` (src/server.js line 238): the resolved image URL, or the
rejection it throws. -/
inductive ProviderOutcome where
  | ok (imageUrl : String)
  | err (e : JsError)
deriving DecidableEq

/-- The observable outcome of one `generateWithAI` call: its resolved value
or thrown error, the result cache afterwards, the progress events written,
and how many times the provider adapter was invoked. -/
structure GenOutcome where
  result : Except JsError DemoResult
  cache : ResultCache
  events : List Event
  providerCalls : Nat

/-- `generateWithAI` (src/server.js lines 234-267): invoke the provider
adapter first — with no cache consultation — and return its result as a
`completed` result object; if the provider throws, fall back to
`generateDemo` (whose own throw, e.g. on the `undefined` source image,
propagates). -/
def generateWithAI (provider : ProviderOutcome) (hash : String → String)
    (cache : ResultCache) (now : Nat) (tracked : Bool) (req : AIRequest) :
    GenOutcome :=
  match provider with
  | .ok url =>
      { result := .ok { status := "completed", imageUrl := url, fromCache := false }
        cache := cache
        events := []
        providerCalls := 1 }
  | .err _ =>
      match generateDemo hash cache now tracked req with
      | .ok (r, c, ev) =>
          { result := .ok r, cache := c, events := ev, providerCalls := 1 }
      | .error e =>
          { result := .error e, cache := cache, events := [], providerCalls := 1 }

/-- The terminal write into `activeGenerations` performed by the `.then` /
`.catch` continuations of `app.post('/api/generate')` (src/server.js lines
515-532): a result event carrying the result's status and
`fromCache || false`, or an error event with status `failed` and
`error.message || 'Generation failed'`. -/
def finalTrackerEvent (r : Except JsError DemoResult) : Event :=
  match r with
  | .ok result =>
      { type := "result"
        status := result.status
        progress := none
        message := none
        imageUrl := some result.imageUrl
        error := none
        fromCache := result.fromCache }
  | .error e =>
      { type := "error"
        status := "failed"
        progress := none
        message := none
        imageUrl := none
        error := some (jsOrStr e.message "Generation failed")
        fromCache := false }

/-- The asynchronous generation phase launched by `app.post('/api/generate')`
after the job id has been issued (src/server.js lines 514-532), from the
request body to the terminal tracker event. -/
def processGeneration (provider : ProviderOutcome) (hash : String → String)
    (cache : ResultCache) (now : Nat) (tracked : Bool) (img : UploadedImage)
    (options : ClientOptions) : GenOutcome × Event :=
  let g := generateWithAI provider hash cache now tracked (buildAIRequest img options)
  (g, finalTrackerEvent g.result)

/-- The provider dispatch of `AIModelService.generateImage`
(src/services/aiModelService.ts lines 147-160): a `switch` on the current
model's provider that invokes exactly one provider (or throws for an
unsupported name, invoking none). -/
def generateImageDispatch (providerName : String) : List String :=
  if providerName = "pollinations" then ["pollinations"]
  else if providerName = "huggingface" then ["huggingface"]
  else if providerName = "replicate" then ["replicate"]
  else if providerName = "together" then ["together"]
  else []


/-- The request body of `POST /api/generate` (src/server.js line 473):
either top-level property may be missing. -/
structure GenerateBody where
  image : Option UploadedImage
  options : Option ClientOptions
deriving DecidableEq

/-- The HTTP response of `POST /api/generate`, reduced to status code and
either the error text or the acknowledgment fields. -/
structure HttpResponse where
  status : Nat
  error : Option String
  requestId : Option String
  message : Option String
  progressUrl : Option String
deriving DecidableEq

/-- What one call of the route handler observably does: the synchronous
response, the job id placed into `activeGenerations` (if any), and whether
the asynchronous generation (the provider pipeline) was started. -/
structure HandlerResult where
  response : HttpResponse
  jobIssued : Option String
  generationStarted : Bool
deriving DecidableEq

/-- The synchronous part of `app.post('/api/generate')` (src/server.js
lines 471-513): the only validation is `!image || !options`, rejected with
status 400 before any job id exists and before any generation work; any
body with both objects present — whatever the contents of the option
fields — is acknowledged with status 200, a fresh request id, and the
progress URL, and generation is started.  `requestId` stands for the
`gen_` + timestamp + random token generated at line 479. -/
def handleGenerate (body : GenerateBody) (requestId : String) : HandlerResult :=
  match body.image, body.options with
  | some _, some _ =>
      { response :=
          { status := 200
            error := none
            requestId := some requestId
            message := some "Generation started"
            progressUrl := some ("/api/generate/progress/" ++ requestId) }
        jobIssued := some requestId
        generationStarted := true }
  | _, _ =>
      { response :=
          { status := 400
            error := some "Missing image or options in request body."
            requestId := none
            message := none
            progressUrl := none }
        jobIssued := none
        generationStarted := false }

/-- The result of `moderateContent` (src/server.js lines 403-430). -/
structure ModerationResult where
  blocked : Bool
  reason : Option String
deriving DecidableEq

/-- The `explicitTerms` blocklist of `moderateContent` (src/server.js lines
405-409). -/
def explicitTerms : List String :=
  ["nude", "naked", "nsfw", "explicit", "sexual", "erotic", "pornographic",
   "masturbation", "masturbating", "sex", "vagina", "penis", "breast", "nipple",
   "anal", "pussy", "dick", "cock", "tits", "ass", "topless", "bottomless"]

/-- `moderateContent` (src/server.js lines 403-430): join the six style
fields (defaulting each to the empty string) with spaces, lower-case the
result, and block on the first listed term it contains.  The function is
defined in the source but never called from any route. -/
def moderateContent (options : ClientOptions) : ModerationResult :=
  let contentToCheck := jsToLower (String.intercalate " "
    [jsStrOr options.pose "", jsStrOr options.background "",
     jsStrOr options.clothing "", jsStrOr options.lighting "",
     jsStrOr options.style "", jsStrOr options.bodyType ""])
  match explicitTerms.find? (fun term => jsIncludes contentToCheck term) with
  | some term =>
      { blocked := true
        reason := some ("Content blocked: Contains inappropriate term \"" ++ term ++
          "\". This application is for professional portraits only.") }
  | none => { blocked := false, reason := none }

/-- A width × height pair. -/
structure Dimensions where
  width : Nat
  height : Nat
deriving DecidableEq

/-- `EnhancedAIService.getOptimalDimensions`
(src/services/enhancedAIService.ts lines 161-172). -/
def getOptimalDimensions (qualityMode : String) : Dimensions :=
  if qualityMode = "fast" then ⟨640, 896⟩
  else if qualityMode = "balanced" then ⟨768, 1024⟩
  else if qualityMode = "high" then ⟨1024, 1366⟩
  else ⟨768, 1024⟩

/-- `EnhancedAIService.getOptimalSteps`
(src/services/enhancedAIService.ts lines 177-184). -/
def getOptimalSteps (qualityMode : String) : Nat :=
  if qualityMode = "fast" then 8
  else if qualityMode = "balanced" then 16
  else if qualityMode = "high" then 24
  else 16

/-- The `targetDimensions[qualityMode] || targetDimensions.balanced` lookup
of `optimizeImageForGeneration` (src/server.js lines 37-44). -/
def targetDimensionsLookup (qualityMode : String) : Dimensions :=
  if qualityMode = "fast" then ⟨640, 896⟩
  else if qualityMode = "balanced" then ⟨768, 1024⟩
  else if qualityMode = "high" then ⟨1024, 1366⟩
  else ⟨768, 1024⟩

/-- One Replicate prediction status response, as read by the poll loops. -/
structure Prediction where
  status : String
  output : List String
deriving DecidableEq

/-- The outcome of `pollReplicateResult`: the resolved output (possibly an
`undefined` element of an empty output array), or one of its two throws. -/
inductive PollOutcome where
  | success (out : Option String)
  | failedErr
  | timeoutErr
deriving DecidableEq

/-- One run of a poll loop: its outcome, the number of status fetches made,
and the total milliseconds spent sleeping. -/
structure PollRun where
  outcome : PollOutcome
  polls : Nat
  sleptMs : Nat
deriving DecidableEq

/-- The loop body of `AIModelService.pollReplicateResult`
(src/services/aiModelService.ts lines 317-341), with the remaining attempt
budget made explicit: while attempts remain, fetch the prediction, return on
`succeeded`, throw on `failed`, otherwise sleep 2000 ms and retry; an
exhausted budget throws the timeout error.  `pred i` is the prediction
returned by the `i`-th fetch. -/
def pollReplicateAux (pred : Nat → Prediction) : Nat → Nat → PollRun
  | 0, _ => ⟨.timeoutErr, 0, 0⟩
  | remaining + 1, i =>
      let p := pred i
      if p.status = "succeeded" then ⟨.success p.output.head?, 1, 0⟩
      else if p.status = "failed" then ⟨.failedErr, 1, 0⟩
      else
        let r := pollReplicateAux pred remaining (i + 1)
        ⟨r.outcome, r.polls + 1, r.sleptMs + 2000⟩

/-- `AIModelService.pollReplicateResult` (src/services/aiModelService.ts
lines 317-341): the loop above started with `maxAttempts = 60`. -/
def pollReplicateResult (pred : Nat → Prediction) : PollRun :=
  pollReplicateAux pred 60 0

/-- The polling `while` loop of the serverless handler in
src/api/generate.js (lines 55-66), run for `fuel` iterations: the loop has
NO attempt bound, so the embedding can only observe it through a fuel
parameter — `none` means the loop was still running after `fuel` checks.
`pred 0` is the prediction from the start request; `pred (i+1)` comes from
the `i`-th poll fetch after a 2000 ms sleep. -/
def apiPollAux (pred : Nat → Prediction) : Nat → Nat → Option Prediction
  | 0, _ => none
  | fuel + 1, i =>
      let p := pred i
      if p.status = "succeeded" ∨ p.status = "failed" ∨ p.status = "canceled" then
        some p
      else apiPollAux pred fuel (i + 1)

/-- A prediction stream that never reaches a terminal status. -/
def foreverProcessing : Nat → Prediction :=
  fun _ => ⟨"processing", []⟩

/-- The `GenerationRequest` passed to `AIModelService.generateImage`
(src/services/aiModelService.ts lines 20-33), reduced to the fields the
Pollinations path reads. -/
structure GenReq where
  prompt : String
  sourceImage : Option String
  width : Nat
  height : Nat
  steps : Nat
  seed : Option Nat
deriving DecidableEq

/-- `AIModelService.generateWithPollinations`
(src/services/aiModelService.ts lines 165-185): the generation URL is the
Pollinations base URL, the URI-encoded prompt, and the `URLSearchParams`
in insertion order — model, width, height, seed (the request seed, or the
random draw when absent or zero), enhance, nologo.  `enc` stands for
JavaScript `encodeURIComponent`; `seedDraw` for
`Math.floor(Math.random() * 1000000)`.  The source image is never read. -/
def generateWithPollinations (enc : String → String) (seedDraw : Nat)
    (request : GenReq) : String :=
  let seed := match request.seed with
    | some s => if s = 0 then seedDraw else s
    | none => seedDraw
  "https://image.pollinations.ai/prompt" ++ "/" ++ enc request.prompt ++
  "?" ++ "model=flux" ++ "&width=" ++ toString request.width ++
  "&height=" ++ toString request.height ++ "&seed=" ++ toString seed ++
  "&enhance=true&nologo=true"

/-- The `GenerationRequest` argument built by `generateWithAI`
(src/server.js lines 238-249): the aiRequest has no `width`, `height` or
`steps` properties, so the `||` defaults 768 / 1024 / 16 always apply, and
no `seed` is passed at all. -/
def generateImageArgs (req : AIRequest) : GenReq :=
  { prompt := req.targetPrompt
    sourceImage := req.sourceImage
    width := 768
    height := 1024
    steps := 16
    seed := none }

/-- The initial `starting` entry placed into `activeGenerations` by the
route (src/server.js lines 499-505). -/
def startingEvent : Event :=
  { type := "progress"
    status := "starting"
    progress := some 0
    message := some "Initializing generation..."
    imageUrl := none
    error := none
    fromCache := false }

/-- The whole sequence of values written into `activeGenerations` for one
job: the `starting` entry at submission, the demo loop's `generating`
entries, and the terminal `.then`/`.catch` write. -/
def jobTrace (provider : ProviderOutcome) (hash : String → String)
    (cache : ResultCache) (now : Nat) (tracked : Bool) (req : AIRequest) :
    List Event :=
  let g := generateWithAI provider hash cache now tracked req
  startingEvent :: g.events ++ [finalTrackerEvent g.result]

/-- Terminal-status test used by the SSE polling interval (src/server.js
line 455). -/
def isTerminalEvent (e : Event) : Bool :=
  e.status = "completed" || e.status = "failed"

/-- The SSE delivery loop of `GET /api/generate/progress/:requestId`
(src/server.js lines 450-461) applied to the sequence of states it observes:
each observed state is written to the stream, and on the first `completed`
or `failed` state the interval is cleared, the job entry deleted, and the
stream closed — nothing is emitted afterwards. -/
def sseEmit : List Event → List Event
  | [] => []
  | e :: rest => if isTerminalEvent e then [e] else e :: sseEmit rest

/-- Sample well-formed client options used by concrete witnesses. -/
def sampleOptions : ClientOptions :=
  { pose := some "confident standing pose"
    background := some "studio backdrop"
    clothing := some "black blazer"
    lighting := some "soft key light"
    style := some "editorial"
    bodyType := some "athletic"
    strength := some "0.8"
    qualityMode := some "balanced"
    enableHQRefinement := some true }

/-- Sample client options with every field absent, used by concrete
witnesses for the validation claims. -/
def emptyOptions : ClientOptions :=
  { pose := none
    background := none
    clothing := none
    lighting := none
    style := none
    bodyType := none
    strength := none
    qualityMode := none
    enableHQRefinement := none }

/-- Sample client options whose pose field contains a term of the
`explicitTerms` blocklist. -/
def explicitSampleOptions : ClientOptions :=
  { sampleOptions with pose := some "nude artistic pose" }

theorem hexVal_hexDigit (n : Nat) (h : n < 16) : hexVal (hexDigit n) = n := by
  interval_cases n <;> decide

theorem decodeFirst_escape (c : Char) (r : List Char) :
    decodeFirst (escapeChar c ++ r) = some (c, r) := by
  unfold escapeChar
  split_ifs with h1 h2 h3 h4 h5 h6 h7 h8
  · subst h1; rfl
  · subst h2; rfl
  · subst h3; rfl
  · subst h4; rfl
  · subst h5; rfl
  · subst h6; rfl
  · subst h7; rfl
  · have hd1 : c.toNat / 16 < 16 := by omega
    have hd2 : c.toNat % 16 < 16 := Nat.mod_lt _ (by norm_num)
    simp only [List.cons_append, decodeFirst, decodeEscaped, decodeHex]
    norm_num
    simp [hexVal_hexDigit _ hd1, hexVal_hexDigit _ hd2, Nat.div_add_mod, Char.ofNat_toNat]
  · simp only [List.cons_append, List.nil_append, decodeFirst]
    rw [if_neg h2]

theorem escapeChar_ne_nil (c : Char) : escapeChar c ≠ [] := by
  unfold escapeChar
  split_ifs <;> simp

theorem escapeList_injective (l1 l2 : List Char)
    (h : escapeList l1 = escapeList l2) : l1 = l2 := by
  induction l1 generalizing l2 with
  | nil =>
    cases l2 with
    | nil => rfl
    | cons c t =>
      exfalso
      simp only [escapeList, List.flatMap_nil, List.flatMap_cons] at h
      exact escapeChar_ne_nil c (List.append_eq_nil.mp h.symm).1
  | cons c t ih =>
    cases l2 with
    | nil =>
      exfalso
      simp only [escapeList, List.flatMap_nil, List.flatMap_cons] at h
      exact escapeChar_ne_nil c (List.append_eq_nil.mp h).1
    | cons c' t' =>
      simp only [escapeList, List.flatMap_cons] at h
      have h2 := congrArg decodeFirst h
      rw [decodeFirst_escape, decodeFirst_escape] at h2
      have h3 := Option.some.inj h2
      have hc : c = c' := congrArg Prod.fst h3
      have ht : escapeList t = escapeList t' := congrArg Prod.snd h3
      rw [hc, ih _ ht]

theorem jsonStr_data (s : String) :
    (jsonStr s).data = '"' :: escapeList s.data ++ ['"'] := by
  simp [jsonStr, jsonEscape, String.data_append]

theorem jsonStr_injective (s1 s2 : String) (h : jsonStr s1 = jsonStr s2) : s1 = s2 := by
  have hd := congrArg String.data h
  rw [jsonStr_data, jsonStr_data] at hd
  have h2 := List.tail_eq_of_cons_eq hd
  have h3 := List.append_cancel_right h2
  exact String.ext (escapeList_injective _ _ h3)

theorem buildEnhancedPrompt_pose_inj (o : ClientOptions) (p1 p2 : String)
    (h : buildEnhancedPrompt { o with pose := some p1 } =
      buildEnhancedPrompt { o with pose := some p2 }) : p1 = p2 := by
  have hd := congrArg String.data h
  simp only [buildEnhancedPrompt, jsTemplate, String.data_append, List.append_assoc] at hd
  replace hd := List.append_cancel_left hd
  replace hd := List.append_cancel_left hd
  replace hd := List.append_cancel_left hd
  replace hd := List.append_cancel_right hd
  exact String.ext hd

theorem keyString_pose_inj (hash : String → String) (img : String)
    (o : ClientOptions) (p1 p2 : String)
    (h : keyStringOf hash (cacheRequestOf img { o with pose := some p1 }) img =
      keyStringOf hash (cacheRequestOf img { o with pose := some p2 }) img) :
    p1 = p2 := by
  have hso : serializeOptions { o with pose := some p1 } =
      serializeOptions { o with pose := some p2 } := rfl
  have hd := congrArg String.data h
  rw [keyStringOf, keyStringOf, cacheRequestOf, cacheRequestOf] at hd
  simp only [hso, String.data_append, List.append_assoc] at hd
  replace hd := List.append_cancel_left hd
  replace hd := List.append_cancel_left hd
  replace hd := List.append_cancel_left hd
  replace hd := List.append_cancel_left hd
  replace hd := List.append_cancel_left hd
  replace hd := List.append_cancel_left hd
  replace hd := List.append_cancel_left hd
  replace hd := List.append_cancel_left hd
  replace hd := List.append_cancel_left hd
  replace hd := List.append_cancel_right hd
  exact buildEnhancedPrompt_pose_inj o p1 p2 (jsonStr_injective _ _ (String.ext hd))


/-- C6: the quality profile resolver is total and pure, maps fast to
640x896 / 8 steps, balanced to 768x1024 / 16 steps, high to 1024x1366 / 24
steps, and maps every unrecognized quality mode to exactly the balanced
profile, in both the enhanced service resolver and the server-side
dimension table. -/
theorem c6_quality_profile_resolver :
    (getOptimalDimensions "fast" = ⟨640, 896⟩ ∧
     getOptimalDimensions "balanced" = ⟨768, 1024⟩ ∧
     getOptimalDimensions "high" = ⟨1024, 1366⟩ ∧
     getOptimalSteps "fast" = 8 ∧
     getOptimalSteps "balanced" = 16 ∧
     getOptimalSteps "high" = 24 ∧
     targetDimensionsLookup "fast" = ⟨640, 896⟩ ∧
     targetDimensionsLookup "balanced" = ⟨768, 1024⟩ ∧
     targetDimensionsLookup "high" = ⟨1024, 1366⟩) ∧
    ∀ q : String, q ≠ "fast" → q ≠ "balanced" → q ≠ "high" →
      getOptimalDimensions q = getOptimalDimensions "balanced" ∧
      getOptimalSteps q = getOptimalSteps "balanced" ∧
      targetDimensionsLookup q = targetDimensionsLookup "balanced" := by
  refine ⟨by decide, ?_⟩
  intro q h1 h2 h3
  refine ⟨?_, ?_, ?_⟩ <;>
    simp [getOptimalDimensions, getOptimalSteps, targetDimensionsLookup, h1, h2, h3]

/-- Witness for C6: a concrete unrecognized quality mode resolves to the
balanced profile. -/
theorem c6_quality_profile_resolver_witness :
    getOptimalDimensions "ultra" = getOptimalDimensions "balanced" ∧
    getOptimalSteps "ultra" = getOptimalSteps "balanced" ∧
    targetDimensionsLookup "ultra" = targetDimensionsLookup "balanced" :=
  c6_quality_profile_resolver.2 "ultra" (by decide) (by decide) (by decide)

/-- C9: the served `POST /api/generate` endpoint performs no content
moderation: every body with both image and options present is accepted with
a request id, whatever the option texts; the blocklist `moderateContent`
would block the sample explicit options, yet the route accepts them
identically. -/
theorem c9_no_content_moderation :
    (∀ (img : UploadedImage) (o : ClientOptions) (rid : String),
      (handleGenerate ⟨some img, some o⟩ rid).response.status = 200 ∧
      (handleGenerate ⟨some img, some o⟩ rid).response.error = none ∧
      (handleGenerate ⟨some img, some o⟩ rid).jobIssued = some rid) ∧
    (moderateContent explicitSampleOptions).blocked = true ∧
    (handleGenerate ⟨some ⟨"IMG", "image/png"⟩, some explicitSampleOptions⟩ "gen_1").response.status = 200 ∧
    (handleGenerate ⟨some ⟨"IMG", "image/png"⟩, some explicitSampleOptions⟩ "gen_1").jobIssued = some "gen_1" := by
  refine ⟨fun img o rid => ⟨rfl, rfl, rfl⟩, ?_, rfl, rfl⟩
  decide

/-- C10: in the default Pollinations configuration, the outgoing generation
URL is identical for two requests that differ only in the uploaded image
bytes (with the same random seed draw): the route forwards an unresolved
`sourceImage` of `undefined`, and the URL builder reads only prompt,
dimensions and seed, never the source image. -/
theorem c10_url_independent_of_image (enc : String → String) (seedDraw : Nat)
    (img1 img2 : UploadedImage) (o : ClientOptions) (r : GenReq)
    (si : Option String) (h : img1.base64 ≠ img2.base64) :
    generateWithPollinations enc seedDraw (generateImageArgs (buildAIRequest img1 o)) =
      generateWithPollinations enc seedDraw (generateImageArgs (buildAIRequest img2 o)) ∧
    (buildAIRequest img1 o).sourceImage = none ∧
    generateWithPollinations enc seedDraw { r with sourceImage := si } =
      generateWithPollinations enc seedDraw r :=
  ⟨rfl, rfl, rfl⟩

/-- Witness for C10: two concrete uploads with different image bytes produce
the same Pollinations URL. -/
theorem c10_url_independent_of_image_witness :
    (⟨"AAAA", "image/png"⟩ : UploadedImage).base64 ≠
      (⟨"BBBB", "image/png"⟩ : UploadedImage).base64 ∧
    generateWithPollinations (fun s => s) 42
        (generateImageArgs (buildAIRequest ⟨"AAAA", "image/png"⟩ sampleOptions)) =
      generateWithPollinations (fun s => s) 42
        (generateImageArgs (buildAIRequest ⟨"BBBB", "image/png"⟩ sampleOptions)) :=
  ⟨by decide,
   (c10_url_independent_of_image (fun s => s) 42 ⟨"AAAA", "image/png"⟩
     ⟨"BBBB", "image/png"⟩ sampleOptions
     ⟨"p", none, 768, 1024, 16, none⟩ none (by decide)).1⟩

/-- C8 counterexample: a request whose options object is present but whose
style-describing fields are all missing is NOT rejected — the route answers
200 and issues a job id, refuting the claimed 4xx rejection for requests
missing the style fields. -/
theorem c8_missing_style_fields_accepted :
    emptyOptions.pose = none ∧ emptyOptions.style = none ∧
    emptyOptions.clothing = none ∧ emptyOptions.background = none ∧
    (handleGenerate ⟨some ⟨"IMG", "image/jpeg"⟩, some emptyOptions⟩ "gen_1").response.status = 200 ∧
    (handleGenerate ⟨some ⟨"IMG", "image/jpeg"⟩, some emptyOptions⟩ "gen_1").jobIssued = some "gen_1" ∧
    (handleGenerate ⟨some ⟨"IMG", "image/jpeg"⟩, some emptyOptions⟩ "gen_1").generationStarted = true := by
  refine ⟨rfl, rfl, rfl, rfl, rfl, rfl, rfl⟩

/-- C8 (amended): the only synchronous validation of `POST /api/generate`
is presence of the image and options objects: a body missing either is
rejected 400 with no job id and no generation started; a body with both
present is issued a job id (status 200) regardless of which option fields
are present. -/
theorem c8_validation (body : GenerateBody) (rid : String) :
    ((body.image = none ∨ body.options = none) →
      (handleGenerate body rid).response.status = 400 ∧
      (handleGenerate body rid).response.error =
        some "Missing image or options in request body." ∧
      (handleGenerate body rid).jobIssued = none ∧
      (handleGenerate body rid).generationStarted = false) ∧
    (∀ img o, body.image = some img → body.options = some o →
      (handleGenerate body rid).response.status = 200 ∧
      (handleGenerate body rid).jobIssued = some rid) := by
  obtain ⟨bi, bo⟩ := body
  constructor
  · intro h
    match bi, bo, h with
    | none, _, _ => cases bo <;> exact ⟨rfl, rfl, rfl, rfl⟩
    | some _, none, _ => exact ⟨rfl, rfl, rfl, rfl⟩
    | some _, some _, h => simp at h
  · intro img o h1 h2
    cases h1
    cases h2
    exact ⟨rfl, rfl⟩

/-- Witness for C8: a body with no image is rejected 400 with no job id; a
body with both objects present is acknowledged with its job id. -/
theorem c8_validation_witness :
    ((handleGenerate ⟨none, some emptyOptions⟩ "g1").response.status = 400 ∧
     (handleGenerate ⟨none, some emptyOptions⟩ "g1").response.error =
       some "Missing image or options in request body." ∧
     (handleGenerate ⟨none, some emptyOptions⟩ "g1").jobIssued = none ∧
     (handleGenerate ⟨none, some emptyOptions⟩ "g1").generationStarted = false) ∧
    ((handleGenerate ⟨some ⟨"I", "image/png"⟩, some sampleOptions⟩ "g2").response.status = 200 ∧
     (handleGenerate ⟨some ⟨"I", "image/png"⟩, some sampleOptions⟩ "g2").jobIssued = some "g2") :=
  ⟨(c8_validation ⟨none, some emptyOptions⟩ "g1").1 (Or.inl rfl),
   (c8_validation ⟨some ⟨"I", "image/png"⟩, some sampleOptions⟩ "g2").2
     ⟨"I", "image/png"⟩ sampleOptions rfl rfl⟩

/-- C3 counterexample: the prediction-polling loop of the serverless
handler (src/api/generate.js) has no attempt bound — against a provider
that never reports succeeded, failed or canceled it is still polling after
100 iterations, well past the documented maximum of 60 attempts, instead
of failing with a timeout error. -/
theorem c3_api_poll_loop_unbounded :
    apiPollAux foreverProcessing 100 0 = none ∧ 60 < 100 := by
  exact ⟨by decide, by decide⟩

/-- C3 (amended): `pollReplicateResult` (src/services/aiModelService.ts)
does poll with a fixed 2000 ms sleep and fails with its timeout error after
exactly 60 attempts when the provider never reports a terminal status; the
other prediction-polling loop, in src/api/generate.js, never terminates
under the same hypothesis, for any number of iterations. -/
theorem c3_poll_bound :
    (∀ pred : Nat → Prediction,
      (∀ i, (pred i).status ≠ "succeeded" ∧ (pred i).status ≠ "failed" ∧
        (pred i).status ≠ "canceled") →
      pollReplicateResult pred = ⟨.timeoutErr, 60, 120000⟩) ∧
    (∀ (pred : Nat → Prediction) (fuel start : Nat),
      (∀ i, (pred i).status ≠ "succeeded" ∧ (pred i).status ≠ "failed" ∧
        (pred i).status ≠ "canceled") →
      apiPollAux pred fuel start = none) := by
  have aux : ∀ (pred : Nat → Prediction),
      (∀ i, (pred i).status ≠ "succeeded" ∧ (pred i).status ≠ "failed") →
      ∀ fuel start, pollReplicateAux pred fuel start =
        ⟨.timeoutErr, fuel, 2000 * fuel⟩ := by
    intro pred h fuel
    induction fuel with
    | zero => intro start; rfl
    | succ n ih =>
      intro start
      simp only [pollReplicateAux, if_neg (h start).1, if_neg (h start).2, ih (start + 1)]
      exact congrArg _ (by ring)
  constructor
  · intro pred h
    have h2 := aux pred (fun i => ⟨(h i).1, (h i).2.1⟩) 60 0
    rw [pollReplicateResult, h2]
  · intro pred fuel
    induction fuel with
    | zero => intro start h; rfl
    | succ n ih =>
      intro start h
      have hs := h start
      simp only [apiPollAux]
      rw [if_neg (by push_neg; exact ⟨hs.1, hs.2.1, hs.2.2⟩)]
      exact ih (start + 1) h

/-- Witness for C3: the never-terminal stream makes `pollReplicateResult`
time out at 60 polls and leaves the serverless loop still running after 200
iterations. -/
theorem c3_poll_bound_witness :
    pollReplicateResult foreverProcessing = ⟨.timeoutErr, 60, 120000⟩ ∧
    apiPollAux foreverProcessing 200 0 = none :=
  ⟨c3_poll_bound.1 foreverProcessing
     (fun _ => ⟨by simp [foreverProcessing], by simp [foreverProcessing],
       by simp [foreverProcessing]⟩),
   c3_poll_bound.2 foreverProcessing 200 0
     (fun _ => ⟨by simp [foreverProcessing], by simp [foreverProcessing],
       by simp [foreverProcessing]⟩)⟩

theorem cacheFind_cacheSet (cache : ResultCache) (k : String) (e : CacheEntry) :
    cacheFind (cacheSet cache k e) k = some e := by
  induction cache with
  | nil => simp [cacheSet, cacheFind, List.lookup]
  | cons p rest ih =>
    obtain ⟨k', v⟩ := p
    by_cases h : k' = k
    · subst h
      simp [cacheSet, cacheFind, List.lookup]
    · simp only [cacheSet, if_neg h, cacheFind, List.lookup]
      rw [show (k == k') = false from beq_eq_false_iff_ne.mpr (Ne.symm h)]
      exact ih

theorem cacheFind_cacheDelete (cache : ResultCache) (k : String) :
    cacheFind (cacheDelete cache k) k = none := by
  induction cache with
  | nil => rfl
  | cons p rest ih =>
    obtain ⟨k', v⟩ := p
    by_cases h : k' = k
    · subst h
      simpa [cacheDelete] using ih
    · simp only [cacheDelete, List.filter] at ih ⊢
      rw [show (!decide (k' = k)) = true from by simp [h]]
      simp only [cacheFind, List.lookup]
      rw [show (k == k') = false from beq_eq_false_iff_ne.mpr (Ne.symm h)]
      exact ih

theorem cacheFind_mem (cache : ResultCache) (k : String) (e : CacheEntry)
    (h : cacheFind cache k = some e) : (k, e) ∈ cache := by
  induction cache with
  | nil => simp [cacheFind, List.lookup] at h
  | cons p rest ih =>
    obtain ⟨k', v⟩ := p
    simp only [cacheFind, List.lookup] at h
    cases hbe : (k == k') with
    | true =>
      rw [hbe] at h
      have hk := beq_iff_eq.mp hbe
      injection h with hv
      subst hk
      subst hv
      exact List.mem_cons_self _ _
    | false =>
      rw [hbe] at h
      exact List.mem_cons_of_mem _ (ih h)

/-- C5: Result Cache round-trip: an immediate `get` after `put` returns the
stored result (and, through the demo path, marked `fromCache := true`);
`get` is absent when no entry exists; an entry whose age exceeds the
24-hour window is absent and is removed from the store by that access. -/
theorem c5_cache_roundtrip :
    (∀ (cache : ResultCache) (key : String) (result : DemoResult) (now : Nat),
      cacheGet (cachePut cache key result now) key now =
        (some result, cachePut cache key result now)) ∧
    (∀ (hash : String → String) (req : AIRequest) (img : String)
        (result : DemoResult) (cache : ResultCache) (now : Nat) (tracked : Bool),
      req.sourceImage = some img →
      generateDemo hash
          (cachePut cache (hash (keyStringOf hash req img)) result now) now tracked req =
        .ok ({ result with fromCache := true },
          cachePut cache (hash (keyStringOf hash req img)) result now, [])) ∧
    (∀ (cache : ResultCache) (key : String) (now : Nat),
      cacheFind cache key = none → cacheGet cache key now = (none, cache)) ∧
    (∀ (cache : ResultCache) (key : String) (now : Nat) (e : CacheEntry),
      cacheFind cache key = some e → now - e.timestamp > CACHE_DURATION →
      (cacheGet cache key now).1 = none ∧
      cacheFind (cacheGet cache key now).2 key = none) := by
  have hget : ∀ (cache : ResultCache) (key : String) (result : DemoResult) (now : Nat),
      cacheGet (cachePut cache key result now) key now =
        (some result, cachePut cache key result now) := by
    intro cache key result now
    simp only [cacheGet, cachePut, cacheFind_cacheSet]
    rw [if_pos]
    simp [CACHE_DURATION]
  refine ⟨hget, ?_, ?_, ?_⟩
  · intro hash req img result cache now tracked hsrc
    simp only [generateDemo, generateCacheKey, hsrc, hget]
  · intro cache key now hfind
    simp only [cacheGet, hfind]
  · intro cache key now e hfind hage
    simp only [cacheGet, hfind]
    rw [if_neg (by omega)]
    exact ⟨rfl, cacheFind_cacheDelete _ _⟩

/-- Witness for C5 at concrete inputs: an immediate round-trip hits (also
through `generateDemo`, marked `fromCache := true`), a missing key misses,
and an entry older than 24 hours misses and is evicted. -/
theorem c5_cache_roundtrip_witness :
    (cacheGet (cachePut [] "k" ⟨"completed", "u", false⟩ 5) "k" 5 =
      (some ⟨"completed", "u", false⟩, cachePut [] "k" ⟨"completed", "u", false⟩ 5)) ∧
    (generateDemo (fun s => s)
        (cachePut [] ((fun s : String => s)
          (keyStringOf (fun s => s) (cacheRequestOf "IMG" sampleOptions) "IMG"))
          ⟨"completed", "u", false⟩ 5) 5 true (cacheRequestOf "IMG" sampleOptions) =
      .ok (⟨"completed", "u", true⟩,
        cachePut [] ((fun s : String => s)
          (keyStringOf (fun s => s) (cacheRequestOf "IMG" sampleOptions) "IMG"))
          ⟨"completed", "u", false⟩ 5, [])) ∧
    (cacheGet [] "k" 7 = (none, [])) ∧
    ((cacheGet [("k", ⟨⟨"completed", "u", false⟩, 0⟩)] "k" (CACHE_DURATION + 1)).1 = none ∧
      cacheFind (cacheGet [("k", ⟨⟨"completed", "u", false⟩, 0⟩)] "k" (CACHE_DURATION + 1)).2 "k" = none) :=
  ⟨c5_cache_roundtrip.1 [] "k" ⟨"completed", "u", false⟩ 5,
   c5_cache_roundtrip.2.1 (fun s => s) (cacheRequestOf "IMG" sampleOptions) "IMG"
     ⟨"completed", "u", false⟩ [] 5 true rfl,
   c5_cache_roundtrip.2.2.1 [] "k" 7 rfl,
   c5_cache_roundtrip.2.2.2 [("k", ⟨⟨"completed", "u", false⟩, 0⟩)] "k"
     (CACHE_DURATION + 1) ⟨⟨"completed", "u", false⟩, 0⟩ (by simp [cacheFind, List.lookup])
     (by simp)⟩

/-- C1 counterexample: with a succeeding provider, an accepted submission
leaves the result cache untouched (nothing is written through), and the
immediately following identical submission invokes the provider again and
does not complete from the cache — refuting the claimed cache-first
orchestration. -/
theorem c1_second_submission_not_from_cache :
    (processGeneration (.ok "https://example.com/out.jpg") (fun s => s) [] 0 true
        ⟨"IMG", "image/png"⟩ sampleOptions).1.cache = [] ∧
    (processGeneration (.ok "https://example.com/out.jpg") (fun s => s)
        (processGeneration (.ok "https://example.com/out.jpg") (fun s => s) [] 0 true
          ⟨"IMG", "image/png"⟩ sampleOptions).1.cache
        1 true ⟨"IMG", "image/png"⟩ sampleOptions).2.fromCache = false ∧
    (processGeneration (.ok "https://example.com/out.jpg") (fun s => s)
        (processGeneration (.ok "https://example.com/out.jpg") (fun s => s) [] 0 true
          ⟨"IMG", "image/png"⟩ sampleOptions).1.cache
        1 true ⟨"IMG", "image/png"⟩ sampleOptions).1.providerCalls = 1 :=
  ⟨rfl, rfl, rfl⟩

/-- C1 (amended): the provider is invoked first, with no cache
consultation — a successful provider call returns with `fromCache = false`
and leaves the cache unchanged; only the demo fallback path consults the
cache: there, a fresh hit completes immediately from the cached result with
`fromCache := true` and no simulated generation, and a miss writes the
completed result through to the cache. -/
theorem c1_cache_checked_only_in_fallback :
    (∀ (hash : String → String) (cache : ResultCache) (now : Nat) (tracked : Bool)
        (req : AIRequest) (url : String),
      generateWithAI (.ok url) hash cache now tracked req =
        ⟨.ok ⟨"completed", url, false⟩, cache, [], 1⟩) ∧
    (∀ (hash : String → String) (cache : ResultCache) (now : Nat) (tracked : Bool)
        (req : AIRequest) (img : String) (cached : CacheEntry),
      req.sourceImage = some img →
      cacheFind cache (hash (keyStringOf hash req img)) = some cached →
      now - cached.timestamp < CACHE_DURATION →
      generateDemo hash cache now tracked req =
        .ok ({ cached.result with fromCache := true }, cache, [])) ∧
    (∀ (hash : String → String) (cache : ResultCache) (now : Nat) (tracked : Bool)
        (req : AIRequest) (img : String),
      req.sourceImage = some img →
      cacheFind cache (hash (keyStringOf hash req img)) = none →
      generateDemo hash cache now tracked req =
        .ok (⟨"completed", demoImageUrl, false⟩,
          cachePut cache (hash (keyStringOf hash req img))
            ⟨"completed", demoImageUrl, false⟩ now,
          demoLoopEvents (processingStepsOf (jsOrStr req.qualityMode "balanced")) tracked)) := by
  refine ⟨fun _ _ _ _ _ _ => rfl, ?_, ?_⟩
  · intro hash cache now tracked req img cached hsrc hfind hfresh
    simp only [generateDemo, generateCacheKey, hsrc, cacheGet, hfind, if_pos hfresh]
  · intro hash cache now tracked req img hsrc hfind
    simp only [generateDemo, generateCacheKey, hsrc, cacheGet, hfind, cachePut]

/-- Witness for C1: concrete fresh-hit and miss runs of the fallback path,
and a concrete success run of the primary path. -/
theorem c1_cache_checked_only_in_fallback_witness :
    (generateWithAI (.ok "https://u") (fun s => s) [] 3 true
        (cacheRequestOf "IMG" sampleOptions) =
      ⟨.ok ⟨"completed", "https://u", false⟩, [], [], 1⟩) ∧
    (generateDemo (fun s => s)
        [((fun s : String => s) (keyStringOf (fun s => s) (cacheRequestOf "IMG" sampleOptions) "IMG"),
          ⟨⟨"completed", "u", false⟩, 2⟩)] 3 true (cacheRequestOf "IMG" sampleOptions) =
      .ok (⟨"completed", "u", true⟩,
        [((fun s : String => s) (keyStringOf (fun s => s) (cacheRequestOf "IMG" sampleOptions) "IMG"),
          ⟨⟨"completed", "u", false⟩, 2⟩)], [])) ∧
    (generateDemo (fun s => s) [] 3 true (cacheRequestOf "IMG" sampleOptions) =
      .ok (⟨"completed", demoImageUrl, false⟩,
        cachePut [] ((fun s : String => s)
          (keyStringOf (fun s => s) (cacheRequestOf "IMG" sampleOptions) "IMG"))
          ⟨"completed", demoImageUrl, false⟩ 3,
        demoLoopEvents (processingStepsOf (jsOrStr
          (cacheRequestOf "IMG" sampleOptions).qualityMode "balanced")) true)) :=
  ⟨c1_cache_checked_only_in_fallback.1 (fun s => s) [] 3 true
     (cacheRequestOf "IMG" sampleOptions) "https://u",
   c1_cache_checked_only_in_fallback.2.1 (fun s => s)
     [((fun s : String => s) (keyStringOf (fun s => s) (cacheRequestOf "IMG" sampleOptions) "IMG"),
       ⟨⟨"completed", "u", false⟩, 2⟩)] 3 true (cacheRequestOf "IMG" sampleOptions) "IMG"
     ⟨⟨"completed", "u", false⟩, 2⟩ rfl (by simp [cacheFind, List.lookup]) (by simp [CACHE_DURATION]),
   c1_cache_checked_only_in_fallback.2.2 (fun s => s) [] 3 true
     (cacheRequestOf "IMG" sampleOptions) "IMG" rfl rfl⟩

/-- C2: once a job id has been issued, a provider-adapter error never
escapes to the HTTP layer: the `.catch` continuation turns the generation
failure into a terminal `failed` tracker event with a non-empty
human-readable error message (in the deployed pipeline the fallback's own
`TypeError` on the unresolved source image, caught by the same boundary);
exactly one provider is invoked per call and the dispatch switch never
invokes more than one provider, so there is no cross-provider failover. -/
theorem c2_provider_error_terminal_failure (e : JsError) (hash : String → String)
    (cache : ResultCache) (now : Nat) (tracked : Bool) (img : UploadedImage)
    (o : ClientOptions) (rid : String) (name : String) :
    (processGeneration (.err e) hash cache now tracked img o).2.status = "failed" ∧
    (processGeneration (.err e) hash cache now tracked img o).2.type = "error" ∧
    (processGeneration (.err e) hash cache now tracked img o).2.error =
      some dataArgMessage ∧
    dataArgMessage ≠ "" ∧
    (processGeneration (.err e) hash cache now tracked img o).1.providerCalls = 1 ∧
    (handleGenerate ⟨some img, some o⟩ rid).response.status = 200 ∧
    (generateImageDispatch name).length ≤ 1 := by
  refine ⟨rfl, rfl, ?_, by decide, rfl, rfl, ?_⟩
  · rfl
  · unfold generateImageDispatch
    split_ifs <;> simp

theorem demo_progress_chain (n : Nat) (tracked : Bool) :
    List.Chain' (· ≤ ·) ((0 : ℚ) :: (demoLoopEvents n tracked).filterMap Event.progress) := by
  cases tracked with
  | false => simp [demoLoopEvents]
  | true =>
    simp only [demoLoopEvents, if_pos]
    rw [List.filterMap_map]
    rw [show ((Event.progress ∘ fun k =>
        ({ type := "progress", status := "generating",
           progress := some (((k + 1 : Nat) : ℚ) / (n : ℚ)),
           message := some (demoStepName (k + 1) n), imageUrl := none,
           error := none, fromCache := false } : Event))) =
      some ∘ (fun k : Nat => ((k + 1 : Nat) : ℚ) / (n : ℚ)) from rfl]
    rw [List.filterMap_eq_map]
    rw [List.chain'_cons']
    constructor
    · intro b hb
      cases n with
      | zero => simp at hb
      | succ m =>
        rw [List.range_succ_eq_map] at hb
        simp only [List.map_cons, List.head?_cons, Option.mem_def, Option.some.injEq] at hb
        subst hb
        positivity
    · rw [List.chain'_map]
      cases n with
      | zero => simp
      | succ m =>
        rw [List.chain'_range_succ]
        intro j hj
        have hpos : (0 : ℚ) < ((m + 1 : Nat) : ℚ) := by positivity
        gcongr
        omega

theorem demo_events_statuses (n : Nat) (tracked : Bool) :
    (demoLoopEvents n tracked).map Event.status =
      List.replicate (if tracked then n else 0) "generating" := by
  cases tracked with
  | false => simp [demoLoopEvents]
  | true =>
    simp only [demoLoopEvents, if_pos, List.map_map]
    rw [show ((Event.status ∘ fun k =>
        ({ type := "progress", status := "generating",
           progress := some (((k + 1 : Nat) : ℚ) / (n : ℚ)),
           message := some (demoStepName (k + 1) n), imageUrl := none,
           error := none, fromCache := false } : Event))) =
      Function.const Nat "generating" from rfl]
    rw [List.map_const, List.length_range]

theorem sse_no_post_terminal (xs : List Event) :
    ((sseEmit xs).dropLast.all (fun e => !isTerminalEvent e)) = true := by
  induction xs with
  | nil => rfl
  | cons e rest ih =>
    by_cases h : isTerminalEvent e
    · simp [sseEmit, h]
    · rw [show sseEmit (e :: rest) = e :: sseEmit rest from by simp [sseEmit, h]]
      cases hl : sseEmit rest with
      | nil => simp
      | cons a t =>
        rw [hl] at ih
        rw [List.dropLast_cons₂, List.all_cons, ih]
        simp [h]

theorem generateDemo_ok_cases (hash : String → String) (cache : ResultCache)
    (now : Nat) (tracked : Bool) (req : AIRequest) (r : DemoResult)
    (c : ResultCache) (ev : List Event)
    (hcache : ∀ p ∈ cache, p.2.result.status = "completed")
    (hd : generateDemo hash cache now tracked req = .ok (r, c, ev)) :
    r.status = "completed" ∧ (ev = [] ∨ ∃ n, ev = demoLoopEvents n tracked) := by
  unfold generateDemo at hd
  cases hk : generateCacheKey hash req with
  | error e => exact Except.noConfusion (hk ▸ hd)
  | ok key =>
    cases hf : cacheFind cache key with
    | some entry =>
      by_cases hfresh : now - entry.timestamp < CACHE_DURATION
      · have hg : cacheGet cache key now = (some entry.result, cache) := by
          simp [cacheGet, hf, hfresh]
        simp only [hk, hg, Except.ok.injEq, Prod.mk.injEq] at hd
        have hst := hcache (key, entry) (cacheFind_mem cache key entry hf)
        refine ⟨?_, Or.inl hd.2.2.symm⟩
        rw [← hd.1]
        exact hst
      · have hg : cacheGet cache key now = (none, cacheDelete cache key) := by
          simp [cacheGet, hf, hfresh]
        simp only [hk, hg, Except.ok.injEq, Prod.mk.injEq] at hd
        exact ⟨by rw [← hd.1], Or.inr ⟨_, hd.2.2.symm⟩⟩
    | none =>
      have hg : cacheGet cache key now = (none, cache) := by
        simp [cacheGet, hf]
      simp only [hk, hg, Except.ok.injEq, Prod.mk.injEq] at hd
      exact ⟨by rw [← hd.1], Or.inr ⟨_, hd.2.2.symm⟩⟩

/-- C7: for every job, the progress values in the written tracker sequence
are non-decreasing; the status sequence follows the state machine
starting, then zero or more generating updates, then one terminal
completed or failed entry; and the SSE delivery loop emits nothing after
the first terminal event it delivers.  The cache invariant hypothesis
states what every reachable cache satisfies: stored results were stored by
the demo path with status completed. -/
theorem c7_progress_monotone_lifecycle (provider : ProviderOutcome)
    (hash : String → String) (cache : ResultCache) (now : Nat) (tracked : Bool)
    (req : AIRequest) (xs : List Event)
    (hcache : ∀ p ∈ cache, p.2.result.status = "completed") :
    List.Chain' (· ≤ ·)
      ((jobTrace provider hash cache now tracked req).filterMap Event.progress) ∧
    (∃ k t, (jobTrace provider hash cache now tracked req).map Event.status =
        "starting" :: (List.replicate k "generating" ++ [t]) ∧
      (t = "completed" ∨ t = "failed")) ∧
    (sseEmit xs).dropLast.all (fun e => !isTerminalEvent e) = true := by
  refine ⟨?_, ?_, sse_no_post_terminal xs⟩
  · cases provider with
    | ok url =>
      simp only [jobTrace, generateWithAI, finalTrackerEvent, startingEvent,
        List.nil_append, List.filterMap_cons, List.filterMap_nil]
      simp
    | err e =>
      cases hd : generateDemo hash cache now tracked req with
      | error e2 =>
        simp only [jobTrace, generateWithAI, hd, finalTrackerEvent, startingEvent,
          List.nil_append, List.filterMap_cons, List.filterMap_nil]
        simp
      | ok val =>
        obtain ⟨r, c, ev⟩ := val
        obtain ⟨hst, hev⟩ := generateDemo_ok_cases hash cache now tracked req r c ev hcache hd
        simp only [jobTrace, generateWithAI, hd, finalTrackerEvent, startingEvent,
          List.filterMap_cons, List.filterMap_append, List.filterMap_nil]
        rcases hev with hnil | ⟨n, hn⟩
        · subst hnil
          simp
        · subst hn
          have := demo_progress_chain n tracked
          simpa using this
  · cases provider with
    | ok url =>
      exact ⟨0, "completed", by simp [jobTrace, generateWithAI, finalTrackerEvent,
        startingEvent], Or.inl rfl⟩
    | err e =>
      cases hd : generateDemo hash cache now tracked req with
      | error e2 =>
        exact ⟨0, "failed", by simp [jobTrace, generateWithAI, hd, finalTrackerEvent,
          startingEvent], Or.inr rfl⟩
      | ok val =>
        obtain ⟨r, c, ev⟩ := val
        obtain ⟨hst, hev⟩ := generateDemo_ok_cases hash cache now tracked req r c ev hcache hd
        rcases hev with hnil | ⟨n, hn⟩
        · subst hnil
          exact ⟨0, r.status, by simp [jobTrace, generateWithAI, hd, finalTrackerEvent,
            startingEvent], Or.inl hst⟩
        · subst hn
          refine ⟨if tracked then n else 0, r.status, ?_, Or.inl hst⟩
          simp [jobTrace, generateWithAI, hd, finalTrackerEvent, startingEvent,
            demo_events_statuses]

/-- Witness for C7: the monotonicity and SSE properties at a concrete job
run with an empty (trivially invariant) cache. -/
theorem c7_progress_monotone_lifecycle_witness :
    List.Chain' (· ≤ ·)
      ((jobTrace (.err ⟨"boom"⟩) (fun s => s) [] 0 true
        (cacheRequestOf "IMG" sampleOptions)).filterMap Event.progress) ∧
    (sseEmit [startingEvent]).dropLast.all (fun e => !isTerminalEvent e) = true :=
  ⟨(c7_progress_monotone_lifecycle (.err ⟨"boom"⟩) (fun s => s) [] 0 true
      (cacheRequestOf "IMG" sampleOptions) [startingEvent] (by simp)).1,
   (c7_progress_monotone_lifecycle (.err ⟨"boom"⟩) (fun s => s) [] 0 true
      (cacheRequestOf "IMG" sampleOptions) [startingEvent] (by simp)).2.2⟩

/-- C4 counterexample: two requests identical in every field except
`enableHQRefinement` produce the SAME cache key — the sorted-key replacer
array passed to `JSON.stringify` drops `enableHQRefinement` (and every
other nested option not named at top level) from the fingerprint, and the
prompt does not mention it either. -/
theorem c4_enable_hq_not_fingerprinted :
    generateCacheKey (fun s => s) (cacheRequestOf "IMGDATA" sampleOptions) =
      generateCacheKey (fun s => s)
        (cacheRequestOf "IMGDATA" { sampleOptions with enableHQRefinement := some false }) ∧
    sampleOptions.enableHQRefinement ≠
      ({ sampleOptions with enableHQRefinement := some false } : ClientOptions).enableHQRefinement ∧
    sampleOptions.pose =
      ({ sampleOptions with enableHQRefinement := some false } : ClientOptions).pose ∧
    sampleOptions.background =
      ({ sampleOptions with enableHQRefinement := some false } : ClientOptions).background ∧
    sampleOptions.clothing =
      ({ sampleOptions with enableHQRefinement := some false } : ClientOptions).clothing ∧
    sampleOptions.lighting =
      ({ sampleOptions with enableHQRefinement := some false } : ClientOptions).lighting ∧
    sampleOptions.style =
      ({ sampleOptions with enableHQRefinement := some false } : ClientOptions).style ∧
    sampleOptions.bodyType =
      ({ sampleOptions with enableHQRefinement := some false } : ClientOptions).bodyType ∧
    sampleOptions.strength =
      ({ sampleOptions with enableHQRefinement := some false } : ClientOptions).strength ∧
    sampleOptions.qualityMode =
      ({ sampleOptions with enableHQRefinement := some false } : ClientOptions).qualityMode :=
  ⟨rfl, by decide, rfl, rfl, rfl, rfl, rfl, rfl, rfl, rfl⟩

/-- C4 (amended): the fingerprint is deterministic (identical requests map
to identical keys); it separates requests that differ in the pose field
(given collision-resistance of SHA-256, taken as injectivity of the hash),
because the pose is embedded in the hashed target prompt; but it is
entirely insensitive to `enableHQRefinement`, which survives neither the
replacer-filtered serialization nor the prompt. -/
theorem c4_fingerprint_sensitivity :
    (∀ (hash : String → String) (img1 img2 : String) (o1 o2 : ClientOptions),
      img1 = img2 → o1 = o2 →
      generateCacheKey hash (cacheRequestOf img1 o1) =
        generateCacheKey hash (cacheRequestOf img2 o2)) ∧
    (∀ (hash : String → String) (img : String) (o : ClientOptions) (p1 p2 : String),
      Function.Injective hash → p1 ≠ p2 →
      generateCacheKey hash (cacheRequestOf img { o with pose := some p1 }) ≠
        generateCacheKey hash (cacheRequestOf img { o with pose := some p2 })) ∧
    (∀ (hash : String → String) (img : String) (o : ClientOptions) (b : Option Bool),
      generateCacheKey hash (cacheRequestOf img { o with enableHQRefinement := b }) =
        generateCacheKey hash (cacheRequestOf img o)) := by
  refine ⟨?_, ?_, ?_⟩
  · intro hash img1 img2 o1 o2 h1 h2
    subst h1
    subst h2
    rfl
  · intro hash img o p1 p2 hinj hne hkey
    apply hne
    have hkey2 : Except.ok (α := String) (ε := JsError)
        (hash (keyStringOf hash (cacheRequestOf img { o with pose := some p1 }) img)) =
        Except.ok (hash (keyStringOf hash (cacheRequestOf img { o with pose := some p2 }) img)) :=
      hkey
    exact keyString_pose_inj hash img o p1 p2 (hinj (Except.ok.inj hkey2))
  · intro hash img o b
    rfl

/-- Witness for C4: with the identity as a (trivially injective) stand-in
hash, two concrete requests differing only in pose get different keys, and
two differing only in `enableHQRefinement` get equal keys. -/
theorem c4_fingerprint_sensitivity_witness :
    generateCacheKey (fun s => s)
        (cacheRequestOf "IMG" { sampleOptions with pose := some "left profile" }) ≠
      generateCacheKey (fun s => s)
        (cacheRequestOf "IMG" { sampleOptions with pose := some "right profile" }) ∧
    generateCacheKey (fun s => s)
        (cacheRequestOf "IMG" { sampleOptions with enableHQRefinement := some false }) =
      generateCacheKey (fun s => s) (cacheRequestOf "IMG" sampleOptions) :=
  ⟨c4_fingerprint_sensitivity.2.1 (fun s => s) "IMG" sampleOptions
     "left profile" "right profile" (fun _ _ h => h) (by decide),
   c4_fingerprint_sensitivity.2.2 (fun s => s) "IMG" sampleOptions (some false)⟩
